import Mathlib

/-!
Verification of the atomize library (src/atomize/atomize.py), a generator for
Atom Syndication Format feeds.  The Python source is shallowly embedded:
each class becomes a structure, each `__init__` that can raise becomes a
function returning `Except PyError _`, and the ElementTree XML layer is
modelled by an explicit tree type together with a small well-formedness
parser standing in for `xml.etree.ElementTree.parse`.
-/

namespace Atomize

/-- The kinds of Python exception the embedded code can raise.  `atomError`
is the library's own `AtomError`; `typeError`, `attributeError` and
`parseError` model the built-in `TypeError`, `AttributeError` and
`xml.etree.ElementTree.ParseError`. -/
inductive PyError where
  | atomError (msg : String)
  | typeError (msg : String)
  | attributeError (msg : String)
  | parseError (msg : String)
deriving Repr, DecidableEq

/-- Whether an error is the library's own `AtomError`. -/
def PyError.isAtomError : PyError → Bool
  | .atomError _ => true
  | _ => false

/-- An XML element tree, modelling `xml.etree.ElementTree.Element`: a tag,
an attribute dictionary, and the children.  Element text is represented as a
`text` child node. -/
inductive XML where
  | elt (tag : String) (attrib : List (String × String)) (children : List XML)
  | text (s : String)
deriving Repr

/-- Tag of the root node (empty for a text node). -/
def XML.tagOf : XML → String
  | .elt t _ _ => t
  | .text _ => ""

/-- Children of the root node. -/
def XML.childrenOf : XML → List XML
  | .elt _ _ cs => cs
  | .text _ => []

/-- Python dictionary update `d[k] = v`: replaces the value at an existing
key in place, otherwise appends the new binding at the end. -/
def dictSet {α : Type} : List (String × α) → String → α → List (String × α)
  | [], k, v => [(k, v)]
  | p :: rest, k, v => if p.1 == k then (k, v) :: rest else p :: dictSet rest k v

/-- Python dictionary lookup `d[k]` (as an `Option`). -/
def dictGet {α : Type} : List (String × α) → String → Option α
  | [], _ => none
  | p :: rest, k => if p.1 == k then some p.2 else dictGet rest k

/-- Python membership test `k in d`. -/
def dictHasKey {α : Type} (d : List (String × α)) (k : String) : Bool :=
  d.any (fun p => p.1 == k)

/-- Number of bindings of key `k` in the association list. -/
def countKey {α : Type} (d : List (String × α)) (k : String) : Nat :=
  (d.filter (fun p => p.1 == k)).length

/-- Python truthiness of an optional string: `None` and the empty string
are falsy, every other string is truthy. -/
def truthy : Option String → Bool
  | none => false
  | some s => s != ""

/-- Python `str()` view of an optional string (`None` prints as "None");
used where the source formats a possibly-None value into a string. -/
def pyStrOfOpt : Option String → String
  | none => "None"
  | some s => s

/-- Setting an attribute on the root element (`elt.attrib[k] = v`). -/
def XML.setAttrib : XML → String → String → XML
  | .elt t a cs, k, v => .elt t (dictSet a k v) cs
  | .text s, _, _ => .text s

/-! ### A model of `xml.etree.ElementTree.parse` on an in-memory string

The source feeds strings such as `<div>...</div>` through `ET.parse`.  We
model the parser for the fragment language the library produces: tags
(possibly with ignored attribute text after the tag name, and self-closing
tags) and character data.  A document must consist of exactly one
well-formed root element; mismatched or unclosed tags are `ParseError`s,
exactly as in the Python parser. -/

/-- Lexical tokens of the modelled XML parser. -/
inductive XmlTok where
  | openTag (name : String)
  | closeTag (name : String)
  | textTok (s : String)
deriving Repr

/-- Lexer state: inside character data or inside a `<...>` tag. -/
inductive LexState where
  | inText (acc : List Char)
  | inTag (acc : List Char)

/-- Emit a pending character-data token, if nonempty. -/
def flushText (acc : List Char) : List XmlTok :=
  if acc.isEmpty then [] else [.textTok (String.mk acc)]

/-- Tag name: the characters up to the first whitespace (attributes inside
the tag are not needed by the library's fragments and are dropped). -/
def tagNameOf (acc : List Char) : String :=
  String.mk (acc.takeWhile (fun c => !c.isWhitespace))

/-- Tokens produced by the text between `<` and `>`: a closing tag, a
self-closing tag, or an opening tag. -/
def mkTagToks (acc : List Char) : List XmlTok :=
  if acc.head? = some '/' then [.closeTag (tagNameOf (acc.drop 1))]
  else if acc.getLast? = some '/' then
    [.openTag (tagNameOf acc.dropLast), .closeTag (tagNameOf acc.dropLast)]
  else [.openTag (tagNameOf acc)]

/-- The lexer: splits the input into tag and character-data tokens; an
unterminated `<...` is a parse error. -/
def tokenizeAux : List Char → LexState → List XmlTok → Except String (List XmlTok)
  | [], .inText acc, toks => .ok (toks ++ flushText acc)
  | [], .inTag _, _ => .error "unclosed token"
  | c :: cs, .inText acc, toks =>
    if c = '<' then tokenizeAux cs (.inTag []) (toks ++ flushText acc)
    else tokenizeAux cs (.inText (acc ++ [c])) toks
  | c :: cs, .inTag acc, toks =>
    if c = '>' then tokenizeAux cs (.inText []) (toks ++ mkTagToks acc)
    else tokenizeAux cs (.inTag (acc ++ [c])) toks

/-- Lex a whole string. -/
def tokenize (s : String) : Except String (List XmlTok) :=
  tokenizeAux s.data (.inText []) []

/-- The parser: a stack of open elements; closing tags must match the
innermost open tag, the document must hold exactly one root element, and
content at the top level outside the root is rejected — the failure modes
of the Python parser on the library's fragments. -/
def parseToks : List XmlTok → List (String × List XML) → Except String XML
  | [], _ => .error "no element found"
  | .openTag t :: rest, stack => parseToks rest ((t, []) :: stack)
  | .textTok s :: rest, stack =>
    match stack with
    | [] => .error "junk after document element"
    | (t, cs) :: st => parseToks rest ((t, cs ++ [XML.text s]) :: st)
  | .closeTag t :: rest, stack =>
    match stack with
    | [] => .error "junk after document element"
    | (t0, cs) :: st =>
      if t = t0 then
        match st with
        | [] => if rest.isEmpty then .ok (XML.elt t0 [] cs)
                else .error "junk after document element"
        | (t1, cs1) :: st2 => parseToks rest ((t1, cs1 ++ [XML.elt t0 [] cs]) :: st2)
      else .error "mismatched tag"

/-- Modelled `ET.parse` over an in-memory string (the source wraps the
string in a reader; the reader plumbing is I/O glue and elided).  All
failures surface as `ParseError`, as in the Python library. -/
def ETparse (s : String) : Except PyError XML :=
  match tokenize s with
  | .error m => .error (.parseError m)
  | .ok toks => (parseToks toks []).mapError PyError.parseError

/-! ### Element model (AtomPerson, AtomText, Content, AtomDate, AtomURI,
Generator, Category, Link) -/

/-- `str.lower()` on a class name (characterwise lowering, as for the
ASCII class names of the source). -/
def toLowerStr (s : String) : String :=
  String.mk (s.data.map Char.toLower)

/-- `AtomPerson` (base of `Author` and `Contributor`): name plus optional
uri and email.  `cls` carries the Python dynamic class name, which
determines the XML tag (`self.__class__.__name__.lower()`). -/
structure AtomPerson where
  cls : String
  name : String
  uri : Option String
  email : Option String
deriving Repr

/-- `Author(name, uri, email)`. -/
def Author (name : String) : AtomPerson := ⟨"Author", name, none, none⟩

/-- `Contributor(name, uri, email)`. -/
def Contributor (name : String) : AtomPerson := ⟨"Contributor", name, none, none⟩

/-- `AtomPerson.publish`: a `<author>`/`<contributor>` element holding a
`name` child and, when truthy, `uri` and `email` children. -/
def AtomPerson.publish (p : AtomPerson) : XML :=
  .elt (toLowerStr p.cls) []
    ([XML.elt "name" [] [.text p.name]] ++
     (if truthy p.uri then [XML.elt "uri" [] [.text (pyStrOfOpt p.uri)]] else []) ++
     (if truthy p.email then [XML.elt "email" [] [.text (pyStrOfOpt p.email)]] else []))

/-- Whether a character list holds a `%s` conversion specifier. -/
def containsPercentS : List Char → Bool
  | [] => false
  | '%' :: 's' :: _ => true
  | _ :: rest => containsPercentS rest

/-- Replace every `%s` in the character list by the argument. -/
def substPercentS : List Char → List Char → List Char
  | [], _ => []
  | '%' :: 's' :: rest, arg => arg ++ substPercentS rest arg
  | c :: rest, arg => c :: substPercentS rest arg

/-- Python `%` formatting of a string by one string argument, as used by
`AtomText.__init__`: if the format string holds no `%s` specifier, Python
raises `TypeError: not all arguments converted during string formatting`;
otherwise every `%s` is replaced by the argument. -/
def pyPercentFormat (fmt : String) (arg : String) : Except PyError String :=
  if containsPercentS fmt.data then .ok (String.mk (substPercentS fmt.data arg.data))
  else .error (.typeError "not all arguments converted during string formatting")

/-- `AtomText` (base of `Title`, `Subtitle`, `Summary`, `Rights`): a text
construct.  `cls` is the Python dynamic class name. -/
structure AtomText where
  cls : String
  content_type : String
  content : String
deriving Repr

/-- `AtomText.__init__`: `text` and `html` content is stored as passed;
`xhtml` content is wrapped in a `<div>`.  Any other content type reaches
`raise AtomError("%s: ... or " + "'xhtml'" % self.__class__.__name__)`:
the `%` binds to the final literal alone, which holds no `%s`, so building
the message raises `TypeError` before `AtomError` can be raised. -/
def AtomText.init (cls content content_type : String) : Except PyError AtomText :=
  if content_type = "text" ∨ content_type = "html" then
    .ok ⟨cls, content_type, content⟩
  else if content_type = "xhtml" then
    .ok ⟨cls, content_type, "<div>" ++ content ++ "</div>"⟩
  else
    match pyPercentFormat "'xhtml'" cls with
    | .error e => .error e
    | .ok tail => .error (.atomError ("%s: content_type must be 'text', 'html' or " ++ tail))

/-- `AtomText.publish`: the element carries a `type` attribute; `xhtml`
content is parsed as XML, the parsed root gets an `xmlns` XHTML-namespace
attribute and is appended as the only child; other content becomes element
text. -/
def AtomText.publish (t : AtomText) : Except PyError XML :=
  if t.content_type = "xhtml" then
    match ETparse t.content with
    | .error e => .error e
    | .ok root =>
      .ok (.elt (toLowerStr t.cls) [("type", t.content_type)]
             [root.setAttrib "xmlns" "http://www.w3.org/1999/xhtml"])
  else
    .ok (.elt (toLowerStr t.cls) [("type", t.content_type)] [.text t.content])

/-- `Content`: entry content with optional inline body and optional `src`
reference.  The constructor stores the (possibly `<div>`-wrapped) body in
`content`; a content type outside text/html/xhtml leaves it unassigned,
modelled as `none`. -/
structure Content where
  content : Option String
  type : String
  src : Option String
deriving Repr

/-- `Content.__init__`: stores the body (wrapping `xhtml` in a `<div>`,
where a `None` body formats as the string "None" via `%s`), then raises
`AtomError` when both `src` and `content` are truthy.  The guarded
`try/except TypeError` in the source can never fire for string arguments
and so does not appear. -/
def Content.init (content : Option String) (content_type : String) (src : Option String) :
    Except PyError Content :=
  let stored : Option String :=
    if content_type = "text" ∨ content_type = "html" then content
    else if content_type = "xhtml" then some ("<div>" ++ pyStrOfOpt content ++ "</div>")
    else none
  if truthy src && truthy content then
    .error (.atomError "Content: Cannot have both src and content defined")
  else .ok ⟨stored, content_type, src⟩

/-- `Content.publish`: a `<content>` element; a truthy `xhtml` body is
parsed, namespaced and appended as the only child, another truthy body
becomes element text; truthy `type` and `src` become attributes. -/
def Content.publish (c : Content) : Except PyError XML :=
  let attrs : List (String × String) :=
    (if c.type != "" then [("type", c.type)] else []) ++
    (if truthy c.src then [("src", pyStrOfOpt c.src)] else [])
  if truthy c.content && (c.type == "xhtml") then
    match ETparse (pyStrOfOpt c.content) with
    | .error e => .error e
    | .ok root =>
      .ok (.elt "content" attrs [root.setAttrib "xmlns" "http://www.w3.org/1999/xhtml"])
  else if truthy c.content then
    .ok (.elt "content" attrs [.text (pyStrOfOpt c.content)])
  else
    .ok (.elt "content" attrs [])

/-- A naive UTC `datetime.datetime`: wall-clock fields, no sub-second
precision (the source never reads microseconds). -/
structure Datetime where
  year : Nat
  month : Nat
  day : Nat
  hour : Nat
  minute : Nat
  second : Nat
deriving Repr, DecidableEq

/-- `date.strftime("%Y-%m-%dT%H:%M:%SZ")` for `datetime`'s field ranges:
each numeric field is emitted as zero-padded decimal digits (4 for the
year — faithful for years 1000–9999, where every strftime implementation
agrees — and 2 for the others), with the literal separators and the
trailing `Z` of the format string. -/
def atomStrftime (d : Datetime) : String :=
  String.mk
    [Nat.digitChar (d.year / 1000 % 10), Nat.digitChar (d.year / 100 % 10),
     Nat.digitChar (d.year / 10 % 10), Nat.digitChar (d.year % 10), '-',
     Nat.digitChar (d.month / 10 % 10), Nat.digitChar (d.month % 10), '-',
     Nat.digitChar (d.day / 10 % 10), Nat.digitChar (d.day % 10), 'T',
     Nat.digitChar (d.hour / 10 % 10), Nat.digitChar (d.hour % 10), ':',
     Nat.digitChar (d.minute / 10 % 10), Nat.digitChar (d.minute % 10), ':',
     Nat.digitChar (d.second / 10 % 10), Nat.digitChar (d.second % 10), 'Z']

/-- `AtomDate` (base of `Updated` and `Published`): stores the serialized
date string.  `cls` is the Python dynamic class name. -/
structure AtomDate where
  cls : String
  date : String
deriving Repr

/-- `AtomDate.__init__`: formats the datetime immediately. -/
def AtomDate.init (cls : String) (d : Datetime) : AtomDate :=
  ⟨cls, atomStrftime d⟩

/-- `AtomDate.publish`: an `<updated>`/`<published>` element whose text is
the stored date string. -/
def AtomDate.publish (a : AtomDate) : XML :=
  .elt (toLowerStr a.cls) [] [.text a.date]

/-- `Generator`: the name of the generating software with optional version
and uri. -/
structure Generator where
  name : String
  version : Option String
  uri : Option String
deriving Repr

/-- `Generator.publish`: a `<generator>` element whose text is the name;
truthy version and uri become attributes. -/
def Generator.publish (g : Generator) : XML :=
  .elt "generator"
    ((if truthy g.version then [("version", pyStrOfOpt g.version)] else []) ++
     (if truthy g.uri then [("uri", pyStrOfOpt g.uri)] else []))
    [.text g.name]

/-- `Category`: a required term with optional scheme and label. -/
structure Category where
  term : String
  scheme : Option String
  label : Option String
deriving Repr

/-- `Category.publish`. -/
def Category.publish (c : Category) : XML :=
  .elt "category"
    ([("term", c.term)] ++
     (if truthy c.scheme then [("scheme", pyStrOfOpt c.scheme)] else []) ++
     (if truthy c.label then [("label", pyStrOfOpt c.label)] else []))
    []

/-- `Link`: href plus the five optional attributes of `Link.__init__`. -/
structure Link where
  href : String
  rel : Option String
  content_type : Option String
  hreflang : Option String
  title : Option String
  length : Option String
deriving Repr

/-- The keyword parameters `Link.__init__` accepts besides `href`. -/
def linkKwNames : List String := ["rel", "content_type", "hreflang", "title", "length"]

/-- A Python keyword call `Link(href, name1=v1, ...)`: a keyword outside
the parameter list of `Link.__init__` raises `TypeError` (the function has
no `**kwargs`); otherwise each named parameter is bound, the rest default
to `None`. -/
def Link.initKw (href : String) (kwargs : List (String × String)) : Except PyError Link :=
  match kwargs.find? (fun p => !(linkKwNames.contains p.1)) with
  | some p => .error (.typeError ("Link got an unexpected keyword argument " ++ p.1))
  | none =>
    .ok { href := href, rel := dictGet kwargs "rel",
          content_type := dictGet kwargs "content_type",
          hreflang := dictGet kwargs "hreflang",
          title := dictGet kwargs "title", length := dictGet kwargs "length" }

/-- `Link.publish`: a `<link>` element with an `href` attribute and the
truthy optional attributes (`content_type` is emitted as `type`). -/
def Link.publish (l : Link) : XML :=
  .elt "link"
    ([("href", l.href)] ++
     (if truthy l.rel then [("rel", pyStrOfOpt l.rel)] else []) ++
     (if truthy l.content_type then [("type", pyStrOfOpt l.content_type)] else []) ++
     (if truthy l.hreflang then [("hreflang", pyStrOfOpt l.hreflang)] else []) ++
     (if truthy l.title then [("title", pyStrOfOpt l.title)] else []) ++
     (if truthy l.length then [("length", pyStrOfOpt l.length)] else []))
    []

/-! ### Dynamically-typed values

The container constructors take duck-typed arguments (a raw string, a
pre-built construct, a list, `None`, or anything else) and store
heterogeneous values in their `elements` dictionary; `PyVal` is the sum of
the Python values the library handles, with `otherObj` standing for any
value of another type. -/

inductive PyVal where
  | pyNone
  | str (s : String)
  | textObj (t : AtomText)
  | person (p : AtomPerson)
  | dt (d : Datetime)
  | dateObj (a : AtomDate)
  | uriObj (cls : String) (uri : String)
  | linkObj (l : Link)
  | genObj (g : Generator)
  | catObj (c : Category)
  | contentObj (c : Content)
  | listV (l : List PyVal)
  | otherObj
deriving Repr

/-- Python `x is None`. -/
def PyVal.isNone : PyVal → Bool
  | .pyNone => true
  | _ => false

/-- The duck-typed `value.publish(parent)` dispatch on a stored element
value.  A value without a `publish` method (a bare string, datetime,
`None`, a list, or a foreign object) raises `AttributeError`. -/
def PyVal.publish : PyVal → Except PyError XML
  | .textObj t => t.publish
  | .person p => .ok p.publish
  | .dateObj a => .ok a.publish
  | .uriObj cls uri => .ok (.elt (toLowerStr cls) [] [.text uri])
  | .linkObj l => .ok l.publish
  | .genObj g => .ok g.publish
  | .catObj c => .ok c.publish
  | .contentObj c => c.publish
  | _ => .error (.attributeError "object has no attribute publish")

/-- The loop shared by `Feed.publish`, `Entry.publish` and
`Source.publish` over `self.elements.values()`: a list value publishes
each member, any other value publishes itself; the children accumulate in
iteration order. -/
def publishElements : List (String × PyVal) → Except PyError (List XML)
  | [] => .ok []
  | (_, v) :: rest =>
    match (match v with
           | .listV l => l.mapM PyVal.publish
           | v' => (PyVal.publish v').map (fun x => [x])) with
    | .error e => .error e
    | .ok xs =>
      match publishElements rest with
      | .error e => .error e
      | .ok ys => .ok (xs ++ ys)

/-! ### Entry -/

/-- `Entry`: holds only its `elements` dictionary. -/
structure Entry where
  elements : List (String × PyVal)
deriving Repr

/-- The `title` handling of `Entry.__init__`: a raw string is wrapped in a
`Title`; a `Title` object is stored under the misspelled key `"titile"`,
as in the source; anything else raises `AtomError`. -/
def entryTitleStep (elements : List (String × PyVal)) (title : PyVal) :
    Except PyError (List (String × PyVal)) :=
  match title with
  | .str s =>
    match AtomText.init "Title" s "text" with
    | .error e => .error e
    | .ok t => .ok (dictSet elements "title" (.textObj t))
  | .textObj t =>
    if t.cls = "Title" then .ok (dictSet elements "titile" (.textObj t))
    else .error (.atomError "Entry: title must be a string or a Title object")
  | _ => .error (.atomError "Entry: title must be a string or a Title object")

/-- The `author` handling of `Entry.__init__`: a string becomes a
one-`Author` list, an `Author` a singleton list, any list (unchecked) is
stored as passed, `None` is skipped, anything else raises `AtomError`. -/
def entryAuthorStep (elements : List (String × PyVal)) (author : PyVal) :
    Except PyError (List (String × PyVal)) :=
  match author with
  | .str s => .ok (dictSet elements "authors" (.listV [.person (Author s)]))
  | .person p =>
    if p.cls = "Author" then .ok (dictSet elements "authors" (.listV [.person p]))
    else .error (.atomError "Entry: author must be a string, list or an Author object")
  | .listV l => .ok (dictSet elements "authors" (.listV l))
  | .pyNone => .ok elements
  | _ => .error (.atomError "Entry: author must be a string, list or an Author object")

/-- The `updated` handling of `Entry.__init__`: a datetime is wrapped in
an `Updated`, an `Updated` object stored as passed, anything else raises
`AtomError`. -/
def entryUpdatedStep (elements : List (String × PyVal)) (updated : PyVal) :
    Except PyError (List (String × PyVal)) :=
  match updated with
  | .dt d => .ok (dictSet elements "updated" (.dateObj (AtomDate.init "Updated" d)))
  | .dateObj a =>
    if a.cls = "Updated" then .ok (dictSet elements "updated" (.dateObj a))
    else .error (.atomError "Entry: updated must be a datetime or an Updated object")
  | _ => .error (.atomError "Entry: updated must be a datetime or an Updated object")

/-- The `guid` handling of `Entry.__init__`: a string is wrapped in an
`ID`, an `ID` object stored as passed, anything else raises `AtomError`. -/
def entryGuidStep (elements : List (String × PyVal)) (guid : PyVal) :
    Except PyError (List (String × PyVal)) :=
  match guid with
  | .str s => .ok (dictSet elements "id" (.uriObj "ID" s))
  | .uriObj cls uri =>
    if cls = "ID" then .ok (dictSet elements "id" (.uriObj cls uri))
    else .error (.atomError "Entry: guid must be a string or an ID object")
  | _ => .error (.atomError "Entry: guid must be a string or an ID object")

/-- `Entry.__init__`: requires title, guid and updated to be non-`None`,
seeds `elements` with the caller's unchecked `**other_elts`, then runs the
four argument-handling steps in source order. -/
def Entry.init (title guid updated author : PyVal)
    (other_elts : List (String × PyVal)) : Except PyError Entry :=
  if title.isNone ∨ guid.isNone ∨ updated.isNone then
    .error (.atomError "Entry: title, guid, and updated must be defined")
  else
    match entryTitleStep other_elts title with
    | .error e => .error e
    | .ok e1 =>
      match entryAuthorStep e1 author with
      | .error e => .error e
      | .ok e2 =>
        match entryUpdatedStep e2 updated with
        | .error e => .error e
        | .ok e3 =>
          match entryGuidStep e3 guid with
          | .error e => .error e
          | .ok e4 => .ok ⟨e4⟩

/-- `Entry.publish`: an `<entry>` element holding the published element
values in dictionary order. -/
def Entry.publish (e : Entry) : Except PyError XML :=
  match publishElements e.elements with
  | .error err => .error err
  | .ok cs => .ok (.elt "entry" [] cs)

/-! ### Source -/

/-- `Source`: same shape as `Entry`. -/
structure Source where
  elements : List (String × PyVal)
deriving Repr

/-- The `title` handling of `Source.__init__`: as for `Entry` (including
the misspelled `"titile"` key), except that `None` is allowed and
skipped. -/
def sourceTitleStep (elements : List (String × PyVal)) (title : PyVal) :
    Except PyError (List (String × PyVal)) :=
  match title with
  | .pyNone => .ok elements
  | other => entryTitleStep elements other

/-- The `updated` handling of `Source.__init__`: as for `Entry`, except
that `None` is allowed and skipped. -/
def sourceUpdatedStep (elements : List (String × PyVal)) (updated : PyVal) :
    Except PyError (List (String × PyVal)) :=
  match updated with
  | .pyNone => .ok elements
  | other => entryUpdatedStep elements other

/-- The `guid` handling of `Source.__init__`.  The source's fall-through
branch reads `elif id is None`, testing the built-in function `id` rather
than the `guid` argument, so it is never taken: a `None` guid reaches the
final `else` and raises `AtomError`, the message still saying "Entry". -/
def sourceGuidStep (elements : List (String × PyVal)) (guid : PyVal) :
    Except PyError (List (String × PyVal)) :=
  entryGuidStep elements guid

/-- `Source.__init__`: missing title/guid/updated only print a warning
(modelled as no effect), then the argument-handling steps run in source
order; the author step is identical to `Entry`'s. -/
def Source.init (title guid updated author : PyVal)
    (other_elts : List (String × PyVal)) : Except PyError Source :=
  match sourceTitleStep other_elts title with
  | .error e => .error e
  | .ok e1 =>
    match entryAuthorStep e1 author with
    | .error e => .error e
    | .ok e2 =>
      match sourceUpdatedStep e2 updated with
      | .error e => .error e
      | .ok e3 =>
        match sourceGuidStep e3 guid with
        | .error e => .error e
        | .ok e4 => .ok ⟨e4⟩

/-- `Source.publish`: the source builds `ET.SubElement(parent, "entry")` —
the tag is `entry`, not `source`. -/
def Source.publish (s : Source) : Except PyError XML :=
  match publishElements s.elements with
  | .error err => .error err
  | .ok cs => .ok (.elt "entry" [] cs)

/-! ### Feed -/

/-- `__package_name__`. -/
def packageName : String := "atomize"

/-- `__version__`. -/
def version : Nat × Nat × Nat := (0, 1, 0)

/-- The string `"%s.%s.%s" % __version__`. -/
def versionString : String :=
  toString version.1 ++ "." ++ toString version.2.1 ++ "." ++ toString version.2.2

/-- The `Generator(__package_name__, version="%s.%s.%s" % __version__)`
that `Feed.__init__` always installs. -/
def libGenerator : Generator := ⟨packageName, some versionString, none⟩

/-- `Feed`: the element dictionary and the ordered entry list. -/
structure Feed where
  elements : List (String × PyVal)
  entries : List Entry
deriving Repr

/-- The `title` handling of `Feed.__init__`: identical in shape to
`Entry`'s (including the misspelled `"titile"` key for `Title` objects),
with `Feed:` in the error message. -/
def feedTitleStep (elements : List (String × PyVal)) (title : PyVal) :
    Except PyError (List (String × PyVal)) :=
  match title with
  | .str s =>
    match AtomText.init "Title" s "text" with
    | .error e => .error e
    | .ok t => .ok (dictSet elements "title" (.textObj t))
  | .textObj t =>
    if t.cls = "Title" then .ok (dictSet elements "titile" (.textObj t))
    else .error (.atomError "Feed: title must be a string or a Title object")
  | _ => .error (.atomError "Feed: title must be a string or a Title object")

/-- Whether an entry's elements dictionary has an `"authors"` key
(`"authors" in entry.elements`). -/
def entryHasAuthors (e : Entry) : Bool :=
  dictHasKey e.elements "authors"

/-- The `author` handling of `Feed.__init__`: as for `Entry` for a string,
`Author` or list; for `None` the feed raises `AtomError` when the entry
list is empty, or when some entry (the loop stops at the first) lacks an
`"authors"` key. -/
def feedAuthorStep (elements : List (String × PyVal)) (author : PyVal)
    (entries : List Entry) : Except PyError (List (String × PyVal)) :=
  match author with
  | .str s => .ok (dictSet elements "authors" (.listV [.person (Author s)]))
  | .person p =>
    if p.cls = "Author" then .ok (dictSet elements "authors" (.listV [.person p]))
    else .error (.atomError "Feed: author must be a string, list or an Author object")
  | .listV l => .ok (dictSet elements "authors" (.listV l))
  | .pyNone =>
    if entries.length = 0 then
      .error (.atomError "Feed: not entries defined and no authors are defined for feed")
    else
      match entries.find? (fun e => !entryHasAuthors e) with
      | some _ =>
        .error (.atomError "Feed: not all entries have an author, but no authors are defined for feed")
      | none => .ok elements
  | _ => .error (.atomError "Feed: author must be a string, list or an Author object")

/-- The `updated` handling of `Feed.__init__`: as for `Entry`, with
`Feed:` in the error message. -/
def feedUpdatedStep (elements : List (String × PyVal)) (updated : PyVal) :
    Except PyError (List (String × PyVal)) :=
  match updated with
  | .dt d => .ok (dictSet elements "updated" (.dateObj (AtomDate.init "Updated" d)))
  | .dateObj a =>
    if a.cls = "Updated" then .ok (dictSet elements "updated" (.dateObj a))
    else .error (.atomError "Feed: updated must be a datetime or an Updated object")
  | _ => .error (.atomError "Feed: updated must be a datetime or an Updated object")

/-- The `self_link` handling of `Feed.__init__`: a raw string is passed to
`Link(self_link, rel="self", type="application/atom+xml")` — the keyword
`type` is not a parameter of `Link.__init__` (its parameter is
`content_type`), so this call raises `TypeError`.  A `Link` whose `rel` is
`"self"` is stored; `None` only prints a warning; anything else raises
`AtomError`. -/
def feedSelfLinkStep (elements : List (String × PyVal)) (self_link : PyVal) :
    Except PyError (List (String × PyVal)) :=
  match self_link with
  | .str s =>
    match Link.initKw s [("rel", "self"), ("type", "application/atom+xml")] with
    | .error e => .error e
    | .ok l => .ok (dictSet elements "self_link" (.linkObj l))
  | .linkObj l =>
    if l.rel = some "self" then .ok (dictSet elements "self_link" (.linkObj l))
    else .error (.atomError "Feed: self_link must be a string or a Link object with a rel attribute of self")
  | .pyNone => .ok elements
  | _ => .error (.atomError "Feed: self_link must be a string or a Link object with a rel attribute of self")

/-- The `guid` handling of `Feed.__init__`: as for `Entry`, with `Feed:`
in the error message. -/
def feedGuidStep (elements : List (String × PyVal)) (guid : PyVal) :
    Except PyError (List (String × PyVal)) :=
  match guid with
  | .str s => .ok (dictSet elements "id" (.uriObj "ID" s))
  | .uriObj cls uri =>
    if cls = "ID" then .ok (dictSet elements "id" (.uriObj cls uri))
    else .error (.atomError "Feed: guid must be a string or an ID object")
  | _ => .error (.atomError "Feed: guid must be a string or an ID object")

/-- `Feed.__init__`: requires title, updated and guid to be non-`None`,
seeds `elements` with the caller's unchecked `**other_elts`, runs the
argument-handling steps in source order, and finally overwrites the
`"generator"` slot with the library's own `Generator`. -/
def Feed.init (title updated guid author self_link : PyVal)
    (entries : List Entry) (other_elts : List (String × PyVal)) :
    Except PyError Feed :=
  if title.isNone ∨ updated.isNone ∨ guid.isNone then
    .error (.atomError "Feed: title, updated, and guid must be defined")
  else
    match feedTitleStep other_elts title with
    | .error e => .error e
    | .ok e1 =>
      match feedAuthorStep e1 author entries with
      | .error e => .error e
      | .ok e2 =>
        match feedUpdatedStep e2 updated with
        | .error e => .error e
        | .ok e3 =>
          match feedSelfLinkStep e3 self_link with
          | .error e => .error e
          | .ok e4 =>
            match feedGuidStep e4 guid with
            | .error e => .error e
            | .ok e5 =>
              .ok ⟨dictSet e5 "generator" (.genObj libGenerator), entries⟩

/-- `Feed.publish`: a root `<feed>` element in the Atom namespace holding
the published element values in dictionary order followed by the published
entries in list order. -/
def Feed.publish (f : Feed) : Except PyError XML :=
  match publishElements f.elements with
  | .error e => .error e
  | .ok elems =>
    match f.entries.mapM Entry.publish with
    | .error e => .error e
    | .ok ents =>
      .ok (.elt "feed" [("xmlns", "http://www.w3.org/2005/Atom")] (elems ++ ents))

/-! ### Serialization to text -/

/-- Character-data escaping of the ElementTree serializer. -/
def escTextChar (c : Char) : String :=
  if c = '&' then "&amp;" else if c = '<' then "&lt;"
  else if c = '>' then "&gt;" else String.mk [c]

/-- Attribute-value escaping of the ElementTree serializer. -/
def escAttrChar (c : Char) : String :=
  if c = '&' then "&amp;" else if c = '<' then "&lt;"
  else if c = '>' then "&gt;" else if c = '"' then "&quot;" else String.mk [c]

/-- Escape character data. -/
def escapeText (s : String) : String :=
  String.join (s.data.map escTextChar)

/-- Escape an attribute value. -/
def escapeAttr (s : String) : String :=
  String.join (s.data.map escAttrChar)

/-- Serialized attribute list, in dictionary order. -/
def attribString (attrs : List (String × String)) : String :=
  String.join (attrs.map (fun p => " " ++ p.1 ++ "=\"" ++ escapeAttr p.2 ++ "\""))

mutual

/-- The ElementTree serializer: childless elements self-close as
`<tag />`, others frame their serialized children. -/
def XML.serialize : XML → String
  | .text s => escapeText s
  | .elt t attrs [] => "<" ++ t ++ attribString attrs ++ " />"
  | .elt t attrs cs =>
    "<" ++ t ++ attribString attrs ++ ">" ++ serializeList cs ++ "</" ++ t ++ ">"

/-- Serialize a list of sibling nodes in order. -/
def serializeList : List XML → String
  | [] => ""
  | x :: xs => XML.serialize x ++ serializeList xs

end

/-- `Feed.feed_string` (through `publish` and `ElementTree.write` with an
XML declaration): the serialized document text. -/
def Feed.feed_string (f : Feed) : Except PyError String :=
  match f.publish with
  | .error e => .error e
  | .ok doc => .ok ("<?xml version='1.0' encoding='utf-8'?>" ++ "\n" ++ doc.serialize)

/-! ### Dictionary lemmas -/

/-- The keys of an element dictionary are distinct (Python dictionaries
cannot bind a key twice; `**other_elts` keyword arguments are unique). -/
def nodupKeys {α : Type} (d : List (String × α)) : Prop :=
  (d.map Prod.fst).Nodup

theorem dictGet_dictSet_self {α : Type} (d : List (String × α)) (k : String) (v : α) :
    dictGet (dictSet d k v) k = some v := by
  induction d with
  | nil => simp [dictSet, dictGet]
  | cons p rest ih =>
    by_cases h : p.1 == k
    · simp [dictSet, dictGet, h]
    · simp only [dictSet, dictGet, h]
      simpa [h] using ih

theorem dictGet_dictSet_ne {α : Type} (d : List (String × α)) (k k2 : String) (v : α)
    (h : k ≠ k2) : dictGet (dictSet d k2 v) k = dictGet d k := by
  induction d with
  | nil =>
    have hk : ¬ (k2 == k) = true := fun hk => h ((beq_iff_eq ..).mp hk).symm
    simp [dictSet, dictGet, hk]
  | cons p rest ih =>
    by_cases hp : p.1 == k2
    · have hpk : ¬ (p.1 == k) := by
        intro hk
        exact h ((beq_iff_eq ..).mp hk ▸ (beq_iff_eq ..).mp hp)
      have hk2 : ¬ (k2 == k) = true := by
        intro hk
        exact h ((beq_iff_eq ..).mp hk).symm
      simp [dictSet, dictGet, hp, hpk, hk2]
    · by_cases hk : p.1 == k
      · simp [dictSet, dictGet, hp, hk]
      · simp only [dictSet, dictGet, hp, hk]
        simpa [hp, hk] using ih

theorem mem_keys_dictSet {α : Type} (d : List (String × α)) (k x : String) (v : α)
    (h : x ∈ (dictSet d k v).map Prod.fst) : x ∈ d.map Prod.fst ∨ x = k := by
  induction d with
  | nil => simpa [dictSet] using h
  | cons p rest ih =>
    by_cases hp : p.1 == k
    · simp only [dictSet, hp, if_pos] at h
      rcases (by simpa using h) with h1 | h1
      · right; exact h1
      · left; simp [h1]
    · simp only [dictSet, hp] at h
      rcases (by simpa using h) with h1 | h1
      · left; simp [h1]
      · rcases ih (by simpa using h1) with h2 | h2
        · left; simp [h2]
        · right; exact h2

theorem nodupKeys_dictSet {α : Type} (d : List (String × α)) (k : String) (v : α)
    (h : nodupKeys d) : nodupKeys (dictSet d k v) := by
  induction d with
  | nil => simp [dictSet, nodupKeys]
  | cons p rest ih =>
    simp only [nodupKeys, List.map_cons, List.nodup_cons] at h
    by_cases hp : p.1 == k
    · have hk : p.1 = k := (beq_iff_eq ..).mp hp
      simp only [dictSet, if_pos hp, nodupKeys, List.map_cons, List.nodup_cons]
      exact ⟨hk ▸ h.1, h.2⟩
    · have hrest := ih h.2
      have hp' : (p.1 == k) = false := by simpa using hp
      simp only [dictSet, hp', Bool.false_eq_true, if_false, nodupKeys, List.map_cons,
        List.nodup_cons]
      refine ⟨fun hmem => ?_, hrest⟩
      rcases mem_keys_dictSet rest k p.1 v hmem with h1 | h1
      · exact h.1 h1
      · exact hp ((beq_iff_eq ..).mpr h1)

theorem countKey_eq_zero_of_not_mem {α : Type} (d : List (String × α)) (k : String)
    (h : k ∉ d.map Prod.fst) : countKey d k = 0 := by
  induction d with
  | nil => simp [countKey]
  | cons p rest ih =>
    simp only [List.map_cons, List.mem_cons, not_or] at h
    have hp : ¬ (p.1 == k) := fun hk => h.1 ((beq_iff_eq ..).mp hk).symm
    simp only [countKey, List.filter_cons, hp]
    exact ih h.2

theorem countKey_dictSet_of_nodup {α : Type} (d : List (String × α)) (k : String) (v : α)
    (h : nodupKeys d) : countKey (dictSet d k v) k = 1 := by
  induction d with
  | nil => simp [dictSet, countKey]
  | cons p rest ih =>
    simp only [nodupKeys, List.map_cons, List.nodup_cons] at h
    by_cases hp : p.1 == k
    · have hk : p.1 = k := (beq_iff_eq ..).mp hp
      have h0 : (List.filter (fun q => q.1 == k) rest).length = 0 :=
        countKey_eq_zero_of_not_mem rest k (hk ▸ h.1)
      simp only [dictSet, if_pos hp, countKey, List.filter_cons, beq_self_eq_true,
        if_true, List.length_cons]
      omega
    · have hrec := ih h.2
      have hp' : (p.1 == k) = false := by simpa using hp
      simp only [dictSet, hp', Bool.false_eq_true, if_false, countKey, List.filter_cons]
      exact hrec

/-- Every failure of the modelled XML parser is a `ParseError`. -/
theorem ETparse_error_shape (s : String) (e : PyError) (h : ETparse s = .error e) :
    ∃ m, e = .parseError m := by
  unfold ETparse at h
  revert h
  cases tokenize s with
  | error m =>
    intro h
    simp at h
    exact ⟨m, h.symm⟩
  | ok toks =>
    cases hp : parseToks toks [] with
    | error m =>
      intro h
      simp [hp, Except.mapError] at h
      exact ⟨m, h.symm⟩
    | ok x =>
      intro h
      simp [hp, Except.mapError] at h

/-! ### Claim theorems -/

/-- C1: the code's own docstring admits a raw-string `self_link`, but the
wrapping call `Link(self_link, rel="self", type="application/atom+xml")`
passes the keyword `type`, which `Link.__init__` does not accept (its
parameter is `content_type`): constructing a Feed with a raw-string
self_link raises `TypeError`, never producing the promised Link.  The
second half of the claim does hold: a `Link` whose `rel` is not `"self"`
is rejected with the library's validation error. -/
theorem c1_self_link_evidence :
    Feed.init (.str "T") (.dt ⟨2021, 6, 1, 0, 0, 0⟩) (.str "urn:x") (.str "A")
        (.str "http://example.com/feed.atom") [] [] =
      .error (.typeError "Link got an unexpected keyword argument type") ∧
    Feed.init (.str "T") (.dt ⟨2021, 6, 1, 0, 0, 0⟩) (.str "urn:x") (.str "A")
        (.linkObj ⟨"http://example.com/feed.atom", some "alternate", none, none, none, none⟩)
        [] [] =
      .error (.atomError "Feed: self_link must be a string or a Link object with a rel attribute of self") :=
  ⟨rfl, rfl⟩

/-- C2 counterexample: for the malformed xhtml fragment `<span>hi`,
construction succeeds (storing the wrapped fragment), and rendering raises
the XML parser's `ParseError` — which is not the `AtomError` kind the
claim requires. -/
theorem c2_counterexample :
    AtomText.init "Title" "<span>hi" "xhtml" =
      .ok ⟨"Title", "xhtml", "<div><span>hi</div>"⟩ ∧
    AtomText.publish ⟨"Title", "xhtml", "<div><span>hi</div>"⟩ =
      .error (.parseError "mismatched tag") ∧
    PyError.isAtomError (.parseError "mismatched tag") = false :=
  ⟨rfl, rfl, rfl⟩

/-- C2 (amended): a text or content construct with content_type `xhtml`
whose wrapped content is not well-formed XML under a single root is
constructed without error, and rendering it raises a `ParseError` (not
`AtomError`); the malformed content is never silently emitted as escaped
text. -/
theorem c2_malformed_xhtml_parse_error (cls content : String)
    (h : (ETparse ("<div>" ++ content ++ "</div>")).isOk = false) :
    (∃ t, AtomText.init cls content "xhtml" = .ok t ∧
        ∃ m, t.publish = .error (.parseError m)) ∧
    (∃ c, Content.init (some content) "xhtml" none = .ok c ∧
        ∃ m, c.publish = .error (.parseError m)) := by
  have hparse : ∃ e, ETparse ("<div>" ++ content ++ "</div>") = .error e := by
    cases hp : ETparse ("<div>" ++ content ++ "</div>") with
    | error e => exact ⟨e, rfl⟩
    | ok x => rw [hp] at h; simp [Except.isOk, Except.toBool] at h
  obtain ⟨e, he⟩ := hparse
  obtain ⟨m, hm⟩ := ETparse_error_shape _ _ he
  subst hm
  have hne' : ("<div>" ++ content ++ "</div>") ≠ "" := by
    intro heq
    have hlen := congrArg String.length heq
    rw [String.length_append, String.length_append] at hlen
    have h5 : ("<div>" : String).length = 5 := rfl
    have h6 : ("</div>" : String).length = 6 := rfl
    have h0 : ("" : String).length = 0 := rfl
    omega
  have hne : (("<div>" ++ content ++ "</div>") != "") = true := bne_iff_ne.mpr hne'
  constructor
  · refine ⟨⟨cls, "xhtml", "<div>" ++ content ++ "</div>"⟩, by simp [AtomText.init], m, ?_⟩
    simp [AtomText.publish, he]
  · refine ⟨⟨some ("<div>" ++ content ++ "</div>"), "xhtml", none⟩, ?_, m, ?_⟩
    · simp [Content.init, truthy, pyStrOfOpt]
    · simp [Content.publish, truthy, pyStrOfOpt, hne, he]

/-- C2 witness for the amended theorem, at the unclosed-tag fragment
`<span>hi`. -/
theorem c2_malformed_xhtml_parse_error_witness :
    (ETparse ("<div>" ++ "<span>hi" ++ "</div>")).isOk = false ∧
    ((∃ t, AtomText.init "Title" "<span>hi" "xhtml" = .ok t ∧
        ∃ m, t.publish = .error (.parseError m)) ∧
     (∃ c, Content.init (some "<span>hi") "xhtml" none = .ok c ∧
        ∃ m, c.publish = .error (.parseError m))) :=
  ⟨rfl, c2_malformed_xhtml_parse_error "Title" "<span>hi" rfl⟩

/-- C3 counterexample: an `Entry` given a list of two `Content` objects
for the singleton `content` element is constructed without any error,
where the claim requires a construction error. -/
theorem c3_counterexample :
    (Entry.init (.str "E") (.str "urn:y") (.dt ⟨2021, 6, 1, 0, 0, 0⟩) .pyNone
        [("content", .listV [.contentObj ⟨some "a", "text", none⟩,
                             .contentObj ⟨some "b", "text", none⟩])]).isOk = true :=
  rfl

/-- C4 counterexample: a Feed with `author=None` and an empty entries
sequence is rejected with `AtomError`, where the claim requires vacuous
success. -/
theorem c4_counterexample :
    Feed.init (.str "T") (.dt ⟨2021, 6, 1, 0, 0, 0⟩) (.str "urn:x") .pyNone .pyNone [] [] =
      .error (.atomError "Feed: not entries defined and no authors are defined for feed") :=
  rfl

/-- C5: the raise statement for an out-of-enum content type formats its
message as `"..." + "'xhtml'" % name`: the `%` applies to the final
literal, which has no conversion specifier, so Python raises `TypeError`
while building the message and the promised `AtomError` is never raised.
The xhtml half of the claim does hold: xhtml content is wrapped in a
single `<div>` root before storage. -/
theorem c5_content_type_enum_evidence :
    AtomText.init "Title" "x" "monkey" =
      .error (.typeError "not all arguments converted during string formatting") ∧
    AtomText.init "Title" "<span>hi</span>" "xhtml" =
      .ok ⟨"Title", "xhtml", "<div><span>hi</span></div>"⟩ :=
  ⟨rfl, rfl⟩

/-- C6: for every Content whose body and src are both set (truthy), the
constructor raises `AtomError`, whatever the content_type. -/
theorem c6_content_body_src_exclusive (content src : Option String) (content_type : String)
    (hc : truthy content = true) (hs : truthy src = true) :
    Content.init content content_type src =
      .error (.atomError "Content: Cannot have both src and content defined") := by
  simp [Content.init, hc, hs]

/-- C6 witness at a concrete body, src and content_type. -/
theorem c6_content_body_src_exclusive_witness :
    truthy (some "body text") = true ∧ truthy (some "http://example.com/c") = true ∧
    Content.init (some "body text") "xhtml" (some "http://example.com/c") =
      .error (.atomError "Content: Cannot have both src and content defined") :=
  ⟨rfl, rfl,
   c6_content_body_src_exclusive (some "body text") (some "http://example.com/c") "xhtml"
     rfl rfl⟩

/-- C10: `Source.publish` builds `ET.SubElement(parent, "entry")`: every
successful rendering of a Source yields an element tagged `entry`, never
`source`. -/
theorem c10_source_publishes_entry_tag (s : Source) (x : XML)
    (h : Source.publish s = .ok x) : x.tagOf = "entry" ∧ x.tagOf ≠ "source" := by
  unfold Source.publish at h
  cases hp : publishElements s.elements with
  | error e => rw [hp] at h; simp at h
  | ok cs =>
    rw [hp] at h
    simp only [Except.ok.injEq] at h
    rw [← h]
    exact ⟨rfl, by simp [XML.tagOf]⟩

/-- C10 witness at the empty Source. -/
theorem c10_source_publishes_entry_tag_witness :
    XML.tagOf (.elt "entry" [] []) = "entry" ∧ XML.tagOf (.elt "entry" [] []) ≠ "source" :=
  c10_source_publishes_entry_tag ⟨[]⟩ (.elt "entry" [] []) rfl

/-- Whether a string has the exact RFC3339 second-precision UTC shape
`YYYY-MM-DDTHH:MM:SSZ`: twenty characters, digits in the numeric
positions, the literal separators, and a trailing `Z`. -/
def isRFC3339Z (s : String) : Bool :=
  match s.data with
  | [y1, y2, y3, y4, s1, o1, o2, s2, a1, a2, tt, h1, h2, c1, i1, i2, c2, e1, e2, z] =>
    y1.isDigit && y2.isDigit && y3.isDigit && y4.isDigit && (s1 == '-') &&
    o1.isDigit && o2.isDigit && (s2 == '-') && a1.isDigit && a2.isDigit &&
    (tt == 'T') && h1.isDigit && h2.isDigit && (c1 == ':') && i1.isDigit &&
    i2.isDigit && (c2 == ':') && e1.isDigit && e2.isDigit && (z == 'Z')
  | _ => false

/-- A decimal digit character is a digit. -/
theorem digitChar_mod_isDigit (n : Nat) : (Nat.digitChar (n % 10)).isDigit = true := by
  have hb : ∀ m, m < 10 → (Nat.digitChar m).isDigit = true := by decide
  exact hb (n % 10) (Nat.mod_lt _ (by decide))

/-- C7: every date construct serializes (and hence renders) as
second-precision RFC3339 UTC with a literal trailing Z, and the date
2021-06-01T00:00:00 UTC serializes to exactly "2021-06-01T00:00:00Z". -/
theorem c7_date_rfc3339_utc (d : Datetime)
    (hy1 : 1000 ≤ d.year) (hy2 : d.year ≤ 9999) (hmo : d.month ≤ 12) (hda : d.day ≤ 31)
    (hho : d.hour ≤ 23) (hmi : d.minute ≤ 59) (hse : d.second ≤ 59) :
    isRFC3339Z (AtomDate.init "Updated" d).date = true ∧
      (AtomDate.init "Published" ⟨2021, 6, 1, 0, 0, 0⟩).date = "2021-06-01T00:00:00Z" := by
  refine ⟨?_, rfl⟩
  show isRFC3339Z (atomStrftime d) = true
  simp [isRFC3339Z, atomStrftime, digitChar_mod_isDigit]

/-- C7 witness at the date of the claim. -/
theorem c7_date_rfc3339_utc_witness :
    (1000 ≤ 2021 ∧ 2021 ≤ 9999 ∧ 6 ≤ 12 ∧ 1 ≤ 31 ∧ 0 ≤ 23 ∧ 0 ≤ 59 ∧ 0 ≤ 59) ∧
    (isRFC3339Z (AtomDate.init "Updated" ⟨2021, 6, 1, 0, 0, 0⟩).date = true ∧
      (AtomDate.init "Published" ⟨2021, 6, 1, 0, 0, 0⟩).date = "2021-06-01T00:00:00Z") :=
  ⟨by decide,
   c7_date_rfc3339_utc ⟨2021, 6, 1, 0, 0, 0⟩ (by decide) (by decide) (by decide)
     (by decide) (by decide) (by decide) (by decide)⟩

set_option maxRecDepth 4000 in
/-- C8: rendering a Feed whose title is an xhtml construct with content
`<span>hi</span>` yields a `title` element whose single child is a `div`
in the XHTML namespace wrapping `<span>hi</span>`; the full feed
serializes to one fixed byte string, so repeated renderings of the same
Feed are byte-identical. -/
theorem c8_xhtml_div_roundtrip :
    ∃ t f doc,
      AtomText.init "Title" "<span>hi</span>" "xhtml" = .ok t ∧
      Feed.init (.textObj t) (.dt ⟨2021, 6, 1, 0, 0, 0⟩) (.str "urn:x") (.str "A")
          .pyNone [] [] = .ok f ∧
      Feed.publish f = .ok doc ∧
      doc.childrenOf.find? (fun c => c.tagOf == "title") =
        some (.elt "title" [("type", "xhtml")]
          [.elt "div" [("xmlns", "http://www.w3.org/1999/xhtml")]
            [.elt "span" [] [.text "hi"]]]) ∧
      f.feed_string = .ok ("<?xml version='1.0' encoding='utf-8'?>" ++ "\n" ++
        "<feed xmlns=\"http://www.w3.org/2005/Atom\"><title type=\"xhtml\"><div xmlns=\"http://www.w3.org/1999/xhtml\"><span>hi</span></div></title><author><name>A</name></author><updated>2021-06-01T00:00:00Z</updated><id>urn:x</id><generator version=\"0.1.0\">atomize</generator></feed>") :=
  ⟨_, _, _, rfl, rfl, rfl, rfl, rfl⟩

/-- C3 (amended): Entry and Source store their extra named elements
completely unchecked — with valid title/guid/updated, construction
succeeds for every `other_elts` dictionary, and every extra binding
(in particular a list bound to a singleton element name, or a non-list
bound to a list-valued element name) is stored verbatim. -/
theorem c3_extra_elements_unchecked (st sg : String) (d : Datetime)
    (oe : List (String × PyVal)) (k : String)
    (h1 : k ≠ "title") (h2 : k ≠ "updated") (h3 : k ≠ "id") :
    (∃ e, Entry.init (.str st) (.str sg) (.dt d) .pyNone oe = .ok e ∧
        dictGet e.elements k = dictGet oe k) ∧
    (∃ s, Source.init (.str st) (.str sg) (.dt d) .pyNone oe = .ok s ∧
        dictGet s.elements k = dictGet oe k) := by
  constructor
  · refine ⟨_, rfl, ?_⟩
    show dictGet (dictSet (dictSet (dictSet oe "title"
        (.textObj ⟨"Title", "text", st⟩)) "updated"
        (.dateObj (AtomDate.init "Updated" d))) "id" (.uriObj "ID" sg)) k = dictGet oe k
    rw [dictGet_dictSet_ne _ _ _ _ h3, dictGet_dictSet_ne _ _ _ _ h2,
      dictGet_dictSet_ne _ _ _ _ h1]
  · refine ⟨_, rfl, ?_⟩
    show dictGet (dictSet (dictSet (dictSet oe "title"
        (.textObj ⟨"Title", "text", st⟩)) "updated"
        (.dateObj (AtomDate.init "Updated" d))) "id" (.uriObj "ID" sg)) k = dictGet oe k
    rw [dictGet_dictSet_ne _ _ _ _ h3, dictGet_dictSet_ne _ _ _ _ h2,
      dictGet_dictSet_ne _ _ _ _ h1]

/-- C3 witness: a list of two Contents under the singleton `content`
name passes through Entry and Source construction untouched. -/
theorem c3_extra_elements_unchecked_witness :
    (("content" : String) ≠ "title" ∧ ("content" : String) ≠ "updated" ∧
      ("content" : String) ≠ "id") ∧
    ((∃ e, Entry.init (.str "E") (.str "urn:y") (.dt ⟨2021, 6, 1, 0, 0, 0⟩) .pyNone
          [("content", .listV [.contentObj ⟨some "a", "text", none⟩,
                               .contentObj ⟨some "b", "text", none⟩])] = .ok e ∧
        dictGet e.elements "content" =
          dictGet [("content", .listV [.contentObj ⟨some "a", "text", none⟩,
                                       .contentObj ⟨some "b", "text", none⟩])] "content") ∧
     (∃ s, Source.init (.str "E") (.str "urn:y") (.dt ⟨2021, 6, 1, 0, 0, 0⟩) .pyNone
          [("content", .listV [.contentObj ⟨some "a", "text", none⟩,
                               .contentObj ⟨some "b", "text", none⟩])] = .ok s ∧
        dictGet s.elements "content" =
          dictGet [("content", .listV [.contentObj ⟨some "a", "text", none⟩,
                                       .contentObj ⟨some "b", "text", none⟩])] "content")) :=
  ⟨⟨by decide, by decide, by decide⟩,
   c3_extra_elements_unchecked "E" "urn:y" ⟨2021, 6, 1, 0, 0, 0⟩
     [("content", .listV [.contentObj ⟨some "a", "text", none⟩,
                          .contentObj ⟨some "b", "text", none⟩])] "content"
     (by decide) (by decide) (by decide)⟩

/-- Success of the `author=None` branch of `Feed.__init__` is decided by
the entry list alone: the step succeeds exactly when the entry list is
nonempty and every entry has an `"authors"` key. -/
theorem feedAuthorStep_none_isOk (e : List (String × PyVal)) (l : List Entry) :
    (feedAuthorStep e .pyNone l).isOk = true ↔
      (l ≠ [] ∧ ∀ x ∈ l, entryHasAuthors x = true) := by
  rcases l with _ | ⟨e0, es⟩
  · simp [feedAuthorStep, Except.isOk, Except.toBool]
  · simp only [feedAuthorStep]
    have hcond : ¬((e0 :: es).length = 0) := by simp
    rw [if_neg hcond]
    cases hf : (e0 :: es).find? (fun x => !entryHasAuthors x) with
    | some x =>
      have hmem := List.mem_of_find?_eq_some hf
      have hprop := List.find?_some hf
      simp only [Except.isOk, Except.toBool]
      constructor
      · intro h; exact absurd h (by simp)
      · rintro ⟨-, hall⟩
        rw [hall x hmem] at hprop
        simp at hprop
    | none =>
      rw [List.find?_eq_none] at hf
      simp only [Except.isOk, Except.toBool]
      constructor
      · intro _
        exact ⟨by simp, fun x hx => by simpa using hf x hx⟩
      · intro _; trivial

/-- With a raw-string title and guid, a raw datetime, and no self_link,
the success of `Feed.__init__` with `author=None` coincides with the
success of its author-handling step. -/
theorem feedInit_isOk_authorNone (st sg : String) (d : Datetime) (l : List Entry)
    (oe : List (String × PyVal)) :
    (Feed.init (.str st) (.dt d) (.str sg) .pyNone .pyNone l oe).isOk =
      (feedAuthorStep (dictSet oe "title" (.textObj ⟨"Title", "text", st⟩))
        .pyNone l).isOk := by
  cases ha : feedAuthorStep (dictSet oe "title" (.textObj ⟨"Title", "text", st⟩))
      .pyNone l with
  | error err =>
    have hred : Feed.init (.str st) (.dt d) (.str sg) .pyNone .pyNone l oe =
        .error err := by
      show (match feedAuthorStep (dictSet oe "title" (.textObj ⟨"Title", "text", st⟩))
              .pyNone l with
            | .error e => (.error e : Except PyError Feed)
            | .ok e2 =>
              .ok ⟨dictSet (dictSet (dictSet e2 "updated"
                    (.dateObj (AtomDate.init "Updated" d))) "id" (.uriObj "ID" sg))
                  "generator" (.genObj libGenerator), l⟩) = .error err
      rw [ha]
    rw [hred]
    rfl
  | ok e2 =>
    have hred : Feed.init (.str st) (.dt d) (.str sg) .pyNone .pyNone l oe =
        .ok ⟨dictSet (dictSet (dictSet e2 "updated"
              (.dateObj (AtomDate.init "Updated" d))) "id" (.uriObj "ID" sg))
            "generator" (.genObj libGenerator), l⟩ := by
      show (match feedAuthorStep (dictSet oe "title" (.textObj ⟨"Title", "text", st⟩))
              .pyNone l with
            | .error e => (.error e : Except PyError Feed)
            | .ok e2 =>
              .ok ⟨dictSet (dictSet (dictSet e2 "updated"
                    (.dateObj (AtomDate.init "Updated" d))) "id" (.uriObj "ID" sg))
                  "generator" (.genObj libGenerator), l⟩) = _
      rw [ha]
    rw [hred]
    rfl

/-- C4 (amended): a Feed with `author=None` (and otherwise valid
arguments) is constructed successfully exactly when the entries sequence
is nonempty and every entry defines its own authors; it is rejected with a
validation error when the entries sequence is empty or some entry lacks
an author. -/
theorem c4_feed_author_none_iff (st sg : String) (d : Datetime) (entries : List Entry)
    (oe : List (String × PyVal)) :
    (Feed.init (.str st) (.dt d) (.str sg) .pyNone .pyNone entries oe).isOk = true ↔
      (entries ≠ [] ∧ ∀ e ∈ entries, entryHasAuthors e = true) := by
  rw [feedInit_isOk_authorNone]
  exact feedAuthorStep_none_isOk _ entries

/-! ### Key-distinctness is preserved by each step of `Feed.__init__` -/

theorem nodupKeys_feedTitleStep (d d' : List (String × PyVal)) (v : PyVal)
    (hnd : nodupKeys d) (h : feedTitleStep d v = .ok d') : nodupKeys d' := by
  cases v with
  | str s =>
    simp [feedTitleStep, AtomText.init] at h
    exact h ▸ nodupKeys_dictSet _ _ _ hnd
  | textObj t =>
    by_cases hc : t.cls = "Title"
    · simp [feedTitleStep, hc] at h
      exact h ▸ nodupKeys_dictSet _ _ _ hnd
    · simp [feedTitleStep, hc] at h
  | pyNone => simp [feedTitleStep] at h
  | person p => simp [feedTitleStep] at h
  | dt d0 => simp [feedTitleStep] at h
  | dateObj a => simp [feedTitleStep] at h
  | uriObj c u => simp [feedTitleStep] at h
  | linkObj l => simp [feedTitleStep] at h
  | genObj g => simp [feedTitleStep] at h
  | catObj c => simp [feedTitleStep] at h
  | contentObj c => simp [feedTitleStep] at h
  | listV l => simp [feedTitleStep] at h
  | otherObj => simp [feedTitleStep] at h

theorem nodupKeys_feedAuthorStep (d d' : List (String × PyVal)) (v : PyVal)
    (entries : List Entry) (hnd : nodupKeys d)
    (h : feedAuthorStep d v entries = .ok d') : nodupKeys d' := by
  cases v with
  | str s =>
    simp [feedAuthorStep] at h
    exact h ▸ nodupKeys_dictSet _ _ _ hnd
  | person p =>
    by_cases hc : p.cls = "Author"
    · simp [feedAuthorStep, hc] at h
      exact h ▸ nodupKeys_dictSet _ _ _ hnd
    · simp [feedAuthorStep, hc] at h
  | listV l =>
    simp [feedAuthorStep] at h
    exact h ▸ nodupKeys_dictSet _ _ _ hnd
  | pyNone =>
    by_cases he : entries.length = 0
    · simp [feedAuthorStep, he] at h
    · simp only [feedAuthorStep, if_neg he] at h
      cases hf : entries.find? (fun e => !entryHasAuthors e) with
      | some x => rw [hf] at h; exact absurd h (by simp)
      | none => rw [hf] at h; simp at h; exact h ▸ hnd
  | textObj t => simp [feedAuthorStep] at h
  | dt d0 => simp [feedAuthorStep] at h
  | dateObj a => simp [feedAuthorStep] at h
  | uriObj c u => simp [feedAuthorStep] at h
  | linkObj l => simp [feedAuthorStep] at h
  | genObj g => simp [feedAuthorStep] at h
  | catObj c => simp [feedAuthorStep] at h
  | contentObj c => simp [feedAuthorStep] at h
  | otherObj => simp [feedAuthorStep] at h

theorem nodupKeys_feedUpdatedStep (d d' : List (String × PyVal)) (v : PyVal)
    (hnd : nodupKeys d) (h : feedUpdatedStep d v = .ok d') : nodupKeys d' := by
  cases v with
  | dt d0 =>
    simp [feedUpdatedStep] at h
    exact h ▸ nodupKeys_dictSet _ _ _ hnd
  | dateObj a =>
    by_cases hc : a.cls = "Updated"
    · simp [feedUpdatedStep, hc] at h
      exact h ▸ nodupKeys_dictSet _ _ _ hnd
    · simp [feedUpdatedStep, hc] at h
  | pyNone => simp [feedUpdatedStep] at h
  | str s => simp [feedUpdatedStep] at h
  | textObj t => simp [feedUpdatedStep] at h
  | person p => simp [feedUpdatedStep] at h
  | uriObj c u => simp [feedUpdatedStep] at h
  | linkObj l => simp [feedUpdatedStep] at h
  | genObj g => simp [feedUpdatedStep] at h
  | catObj c => simp [feedUpdatedStep] at h
  | contentObj c => simp [feedUpdatedStep] at h
  | listV l => simp [feedUpdatedStep] at h
  | otherObj => simp [feedUpdatedStep] at h

theorem nodupKeys_feedSelfLinkStep (d d' : List (String × PyVal)) (v : PyVal)
    (hnd : nodupKeys d) (h : feedSelfLinkStep d v = .ok d') : nodupKeys d' := by
  cases v with
  | str s =>
    have hlink : Link.initKw s [("rel", "self"), ("type", "application/atom+xml")] =
        .error (.typeError "Link got an unexpected keyword argument type") := rfl
    simp [feedSelfLinkStep, hlink] at h
  | linkObj l =>
    by_cases hc : l.rel = some "self"
    · simp [feedSelfLinkStep, hc] at h
      exact h ▸ nodupKeys_dictSet _ _ _ hnd
    · simp [feedSelfLinkStep, hc] at h
  | pyNone => simp [feedSelfLinkStep] at h; exact h ▸ hnd
  | textObj t => simp [feedSelfLinkStep] at h
  | person p => simp [feedSelfLinkStep] at h
  | dt d0 => simp [feedSelfLinkStep] at h
  | dateObj a => simp [feedSelfLinkStep] at h
  | uriObj c u => simp [feedSelfLinkStep] at h
  | genObj g => simp [feedSelfLinkStep] at h
  | catObj c => simp [feedSelfLinkStep] at h
  | contentObj c => simp [feedSelfLinkStep] at h
  | listV l => simp [feedSelfLinkStep] at h
  | otherObj => simp [feedSelfLinkStep] at h

theorem nodupKeys_feedGuidStep (d d' : List (String × PyVal)) (v : PyVal)
    (hnd : nodupKeys d) (h : feedGuidStep d v = .ok d') : nodupKeys d' := by
  cases v with
  | str s =>
    simp [feedGuidStep] at h
    exact h ▸ nodupKeys_dictSet _ _ _ hnd
  | uriObj c u =>
    by_cases hc : c = "ID"
    · simp [feedGuidStep, hc] at h
      exact h ▸ nodupKeys_dictSet _ _ _ hnd
    · simp [feedGuidStep, hc] at h
  | pyNone => simp [feedGuidStep] at h
  | textObj t => simp [feedGuidStep] at h
  | person p => simp [feedGuidStep] at h
  | dt d0 => simp [feedGuidStep] at h
  | dateObj a => simp [feedGuidStep] at h
  | linkObj l => simp [feedGuidStep] at h
  | genObj g => simp [feedGuidStep] at h
  | catObj c => simp [feedGuidStep] at h
  | contentObj c => simp [feedGuidStep] at h
  | listV l => simp [feedGuidStep] at h
  | otherObj => simp [feedGuidStep] at h

/-- C9: every successfully constructed Feed holds exactly one
`"generator"` binding in its elements dictionary, and it is the library's
own Generator (name `atomize`, version `0.1.0`) — any caller-supplied
`generator` entry in `other_elts` is overwritten. -/
theorem c9_generator_injected (title updated guid author self_link : PyVal)
    (entries : List Entry) (oe : List (String × PyVal)) (f : Feed)
    (hnd : nodupKeys oe)
    (h : Feed.init title updated guid author self_link entries oe = .ok f) :
    dictGet f.elements "generator" = some (.genObj libGenerator) ∧
      countKey f.elements "generator" = 1 := by
  unfold Feed.init at h
  split at h
  · exact absurd h (by simp)
  · split at h
    · exact absurd h (by simp)
    · rename_i e1 h1
      have hnd1 := nodupKeys_feedTitleStep oe e1 title hnd h1
      split at h
      · exact absurd h (by simp)
      · rename_i e2 h2
        have hnd2 := nodupKeys_feedAuthorStep e1 e2 author entries hnd1 h2
        split at h
        · exact absurd h (by simp)
        · rename_i e3 h3
          have hnd3 := nodupKeys_feedUpdatedStep e2 e3 updated hnd2 h3
          split at h
          · exact absurd h (by simp)
          · rename_i e4 h4
            have hnd4 := nodupKeys_feedSelfLinkStep e3 e4 self_link hnd3 h4
            split at h
            · exact absurd h (by simp)
            · rename_i e5 h5
              have hnd5 := nodupKeys_feedGuidStep e4 e5 guid hnd4 h5
              injection h with h'
              subst h'
              exact ⟨dictGet_dictSet_self _ _ _,
                     countKey_dictSet_of_nodup _ _ _ hnd5⟩

/-- C9 witness at a concrete Feed whose caller even supplies a generator
of its own, which construction overwrites. -/
theorem c9_generator_injected_witness :
    nodupKeys [("generator", PyVal.genObj ⟨"someapp", some "9.9", none⟩)] ∧
    (dictGet (Feed.mk [("generator", .genObj libGenerator),
        ("title", .textObj ⟨"Title", "text", "T"⟩),
        ("authors", .listV [.person (Author "A")]),
        ("updated", .dateObj ⟨"Updated", "2021-06-01T00:00:00Z"⟩),
        ("id", .uriObj "ID" "urn:x")] []).elements "generator" =
          some (.genObj libGenerator) ∧
      countKey (Feed.mk [("generator", .genObj libGenerator),
        ("title", .textObj ⟨"Title", "text", "T"⟩),
        ("authors", .listV [.person (Author "A")]),
        ("updated", .dateObj ⟨"Updated", "2021-06-01T00:00:00Z"⟩),
        ("id", .uriObj "ID" "urn:x")] []).elements "generator" = 1) := by
  constructor
  · simp [nodupKeys]
  · exact c9_generator_injected (.str "T") (.dt ⟨2021, 6, 1, 0, 0, 0⟩) (.str "urn:x")
      (.str "A") .pyNone []
      [("generator", PyVal.genObj ⟨"someapp", some "9.9", none⟩)] _
      (by simp [nodupKeys]) rfl

end Atomize
